import Mathlib

/-!
# Verification of `realtek_mst_i2c_spi.c` (flashrom Realtek MST I2C-SPI bridge)

Shallow embedding of the command-emulation engine of
`src/realtek_mst_i2c_spi.c`.  The I2C transport is modelled by an `Oracle`
that decides, for the n-th primitive transport operation of a run, whether
it succeeds and (for reads) which byte it returns.  Every engine function is
translated into a pure Lean function threading an explicit state `S` that
records the number of primitive operations performed so far and the trace of
register/data-port traffic issued.

Modelling conventions:
* `realtek_mst_i2c_spi_write_register` (a two-byte `write_data`) and
  `realtek_mst_i2c_spi_read_register` (a selector write followed by a
  one-byte read) are each modelled as one atomic primitive operation,
  recorded as a `regWrite`/`regRead` trace event; raw data-port transfers
  (`realtek_mst_i2c_spi_write_data` on a page buffer, and the bulk-read
  chunk reads) are recorded as `dataWrite`/`dataRead` events.
* A primitive returns `0` on success and `SPI_GENERIC_ERROR = -1` on
  failure, as in the C code; statuses are accumulated with bitwise or on
  `Int`, exactly mirroring the C `ret |= ...` pattern.
* `get_fd_from_context` is modelled as always succeeding: the embedding
  describes the engine operating on an established session.
* Unaligned bulk reads/writes delegate to `default_spi_read` /
  `default_spi_write_256`, external collaborators; they are modelled as a
  single `fallbackRead`/`fallbackWrite` event whose result is supplied by
  the oracle.
* C `do`/`for` loops are embedded as structurally recursive functions on a
  fuel argument; every wrapper passes fuel strictly larger than the number
  of iterations the C loop can perform, so the out-of-fuel branch is never
  reached.
-/

namespace Realtek

/-- `#define REGISTER_ADDRESS (0x94 >> 1)` -/
def REGISTER_ADDRESS : Nat := 0x94 >>> 1

/-- `#define PAGE_SIZE 256` -/
def PAGE_SIZE : Nat := 256

/-- `#define MAX_SPI_WAIT_RETRIES 1000` -/
def MAX_SPI_WAIT_RETRIES : Nat := 1000

/-- `#define MCU_MODE 0x6F` -/
def MCU_MODE : Nat := 0x6F

/-- `#define START_WRITE_XFER 0xA0` -/
def START_WRITE_XFER : Nat := 0xA0

/-- `#define WRITE_XFER_STATUS_MASK 0x20` -/
def WRITE_XFER_STATUS_MASK : Nat := 0x20

/-- `#define MCU_DATA_PORT 0x70` -/
def MCU_DATA_PORT : Nat := 0x70

/-- `#define MAP_PAGE_BYTE2 0x64` -/
def MAP_PAGE_BYTE2 : Nat := 0x64

/-- `#define MAP_PAGE_BYTE1 0x65` -/
def MAP_PAGE_BYTE1 : Nat := 0x65

/-- `#define MAP_PAGE_BYTE0 0x66` -/
def MAP_PAGE_BYTE0 : Nat := 0x66

/-- `#define OPCODE_READ 3` -/
def OPCODE_READ : Nat := 3

/-- `SPI_GENERIC_ERROR` from flashrom's `spi.h` (not under `src/`): the
generic SPI error code, value `-1`. -/
def SPI_GENERIC_ERROR : Int := -1

/-- Modelled from the spec: JEDEC opcode constant from the project's
`spi.h`, which is not under `src/`; standard JEDEC write-enable opcode. -/
def JEDEC_WREN : Nat := 0x06

/-- Modelled from the spec: JEDEC write-status-register opcode from
`spi.h` (not under `src/`). -/
def JEDEC_WRSR : Nat := 0x01

/-- Modelled from the spec: JEDEC chip-erase opcode `0xC7` from `spi.h`
(not under `src/`). -/
def JEDEC_CE_C7 : Nat := 0xC7

/-- Modelled from the spec: JEDEC chip-erase opcode `0x60` from `spi.h`
(not under `src/`). -/
def JEDEC_CE_60 : Nat := 0x60

/-- Modelled from the spec: JEDEC block-erase opcode `0x52` from `spi.h`. -/
def JEDEC_BE_52 : Nat := 0x52

/-- Modelled from the spec: JEDEC block-erase opcode `0xD8` from `spi.h`. -/
def JEDEC_BE_D8 : Nat := 0xD8

/-- Modelled from the spec: JEDEC block-erase opcode `0xD7` from `spi.h`. -/
def JEDEC_BE_D7 : Nat := 0xD7

/-- Modelled from the spec: JEDEC sector-erase opcode `0x20` from `spi.h`. -/
def JEDEC_SE : Nat := 0x20

/-- Bitwise or on `Int`, used for the C `ret |= step` status accumulation
(statuses are two's-complement ints in C; `Int.lor` matches that). -/
instance : OrOp Int := ⟨Int.lor⟩

/-- One observable transport operation of the engine. -/
inductive Event where
  /-- a single-register write (`realtek_mst_i2c_spi_write_register reg val`) -/
  | regWrite (reg val : Nat)
  /-- a single-register read (`realtek_mst_i2c_spi_read_register reg`) -/
  | regRead (reg : Nat)
  /-- a raw multi-byte I2C write (`realtek_mst_i2c_spi_write_data`) -/
  | dataWrite (addr : Nat) (bytes : List Nat)
  /-- a raw multi-byte I2C read (`realtek_mst_i2c_spi_read_data`) -/
  | dataRead (addr len : Nat)
  /-- delegation to the external `default_spi_read` -/
  | fallbackRead (start len : Nat)
  /-- delegation to the external `default_spi_write_256` -/
  | fallbackWrite (start len : Nat)
deriving DecidableEq, Repr

/-- The transport environment: for the n-th primitive operation of a run,
`ok n` tells whether it transfers its full byte count, and `val n` is the
byte delivered when the operation is a register read.  The two `default*`
fields are the results of the external fallback SPI routines. -/
structure Oracle where
  ok : Nat → Bool
  val : Nat → Nat
  defaultReadResult : Int
  defaultWriteResult : Int

/-- Run state: `n` counts primitive transport operations performed so far
(indexing into the oracle), `tr` is the trace of events issued. -/
structure S where
  n : Nat
  tr : List Event
deriving DecidableEq, Repr

/-- The empty initial state. -/
def S0 : S := ⟨0, []⟩

/-- `realtek_mst_i2c_spi_write_register(fd, reg, value)`: a two-byte I2C
write `{reg, value}`; returns `0` or `SPI_GENERIC_ERROR`. -/
def realtek_mst_i2c_spi_write_register (o : Oracle) (reg value : Nat) (s : S) : Int × S :=
  ((if o.ok s.n then 0 else SPI_GENERIC_ERROR),
   ⟨s.n + 1, s.tr ++ [Event.regWrite reg value]⟩)

/-- `realtek_mst_i2c_spi_read_register(fd, reg, &value)`: selector write
plus one-byte read, modelled atomically.  Returns the status and, on
success, the byte read (`none` on failure: the C leaves `*value`
unchanged). -/
def realtek_mst_i2c_spi_read_register (o : Oracle) (reg : Nat) (s : S) :
    Int × Option Nat × S :=
  ((if o.ok s.n then 0 else SPI_GENERIC_ERROR),
   (if o.ok s.n then some (o.val s.n % 256) else none),
   ⟨s.n + 1, s.tr ++ [Event.regRead reg]⟩)

/-- `realtek_mst_i2c_spi_write_data(fd, addr, buf, len)`: one raw multi-byte
I2C write of `bytes` to `addr`. -/
def realtek_mst_i2c_spi_write_data (o : Oracle) (addr : Nat) (bytes : List Nat) (s : S) :
    Int × S :=
  ((if o.ok s.n then 0 else SPI_GENERIC_ERROR),
   ⟨s.n + 1, s.tr ++ [Event.dataWrite addr bytes]⟩)

/-- `realtek_mst_i2c_spi_read_data(fd, addr, buf, len)`: one raw multi-byte
I2C read of `len` bytes from `addr` (contents not modelled). -/
def realtek_mst_i2c_spi_read_data (o : Oracle) (addr len : Nat) (s : S) : Int × S :=
  ((if o.ok s.n then 0 else SPI_GENERIC_ERROR),
   ⟨s.n + 1, s.tr ++ [Event.dataRead addr len]⟩)

/-- The `do { ret |= read_register(...); } while (!ret && ((val & mask) != target)
&& ++tried < MAX_SPI_WAIT_RETRIES*multiplier)` loop of
`realtek_mst_i2c_spi_wait_command_done`, embedded with a fuel argument.
Arguments after the fuel are the C locals `tried`, `ret`, `val`; the result
is `(tried, ret, val, state)` at loop exit.  Note the C short-circuit:
`++tried` executes only when `!ret` and the condition test both pass. -/
def waitLoopF (o : Oracle) (offset mask target : Nat) (bound : Int) :
    Nat → Int → Int → Nat → S → Int × Int × Nat × S
  | 0, tried, ret, val, s => (tried, ret, val, s)
  | fuel + 1, tried, ret, val, s =>
    let step := realtek_mst_i2c_spi_read_register o offset s
    let ret' := ret ||| step.1
    let val' := step.2.1.getD val
    let s' := step.2.2
    if ret' = 0 ∧ (val' &&& mask) ≠ target then
      (if tried + 1 < bound then
        waitLoopF o offset mask target bound fuel (tried + 1) ret' val' s'
       else (tried + 1, ret', val', s'))
    else (tried, ret', val', s')

/-- `realtek_mst_i2c_spi_wait_command_done(fd, offset, mask, target,
multiplier)`.  `val0` models the initial content of the uninitialised C
local `val` (read by the final check only if the very first register read
fails).  After the loop: if `tried == MAX_SPI_WAIT_RETRIES` the distinct
timeout error `-MAX_SPI_WAIT_RETRIES` is returned; otherwise
`SPI_GENERIC_ERROR` if the condition still fails, else the accumulated
`ret`. -/
def realtek_mst_i2c_spi_wait_command_done (o : Oracle) (offset mask target : Nat)
    (multiplier : Int) (val0 : Nat) (s : S) : Int × S :=
  let bound : Int := (MAX_SPI_WAIT_RETRIES : Int) * multiplier
  let r := waitLoopF o offset mask target bound (bound.toNat + 1) 0 0 val0 s
  if r.1 = (MAX_SPI_WAIT_RETRIES : Int) then (-(MAX_SPI_WAIT_RETRIES : Int), r.2.2.2)
  else if (r.2.2.1 &&& mask) ≠ target then (SPI_GENERIC_ERROR, r.2.2.2)
  else (r.2.1, r.2.2.2)

/-- `realtek_mst_i2c_execute_write(fd)`: start the write transfer and wait
for the transfer-status bit to clear. -/
def realtek_mst_i2c_execute_write (o : Oracle) (s : S) : Int × S :=
  let w := realtek_mst_i2c_spi_write_register o MCU_MODE START_WRITE_XFER s
  let d := realtek_mst_i2c_spi_wait_command_done o MCU_MODE WRITE_XFER_STATUS_MASK 0 1 0 w.2
  (w.1 ||| d.1, d.2)

/-- `realtek_mst_i2c_spi_disable_protection(fd)`: the two-phase
read-modify-write of the indirect protection register (sub-register `0xAB`
selected via `0xF4`/`0xF5`), then forcing bit 0 of `0xD7` high.  The C
local `val` starts at `0` and is only updated by a successful read. -/
def realtek_mst_i2c_spi_disable_protection (o : Oracle) (s : S) : Int × S :=
  let w1 := realtek_mst_i2c_spi_write_register o 0xF4 0x9F s
  let w2 := realtek_mst_i2c_spi_write_register o 0xF5 0x10 w1.2
  let w3 := realtek_mst_i2c_spi_write_register o 0xF4 0xAB w2.2
  let r4 := realtek_mst_i2c_spi_read_register o 0xF5 w3.2
  let val1 := r4.2.1.getD 0
  let w5 := realtek_mst_i2c_spi_write_register o 0xF4 0x9F r4.2.2
  let w6 := realtek_mst_i2c_spi_write_register o 0xF5 0x10 w5.2
  let w7 := realtek_mst_i2c_spi_write_register o 0xF4 0xAB w6.2
  let w8 := realtek_mst_i2c_spi_write_register o 0xF5 ((val1 &&& 0xF8) ||| 0x01) w7.2
  let r9 := realtek_mst_i2c_spi_read_register o 0xD7 w8.2
  let val2 := r9.2.1.getD val1
  let w10 := realtek_mst_i2c_spi_write_register o 0xD7 ((val2 &&& 0xFE) ||| 0x01) r9.2.2
  (w1.1 ||| w2.1 ||| w3.1 ||| r4.1 ||| w5.1 ||| w6.1 ||| w7.1 ||| w8.1 ||| r9.1 ||| w10.1,
   w10.2)

/-- The `switch (writearr[0])` of `realtek_mst_i2c_spi_send_command`,
restricted to its effect on `ctrl_reg_val` (opcode-category bits ORed into
the top bits).  `wd` is the already-decremented write count. -/
def ctrl_reg_val_of (opcode wd readcnt : Nat) : Nat :=
  let base := (wd <<< 3) ||| (readcnt <<< 1)
  if opcode = JEDEC_WRSR then (base ||| (1 <<< 5)) ||| (2 <<< 5)
  else if opcode = JEDEC_CE_C7 ∨ opcode = JEDEC_CE_60 ∨ opcode = JEDEC_BE_52 ∨
      opcode = JEDEC_BE_D8 ∨ opcode = JEDEC_BE_D7 ∨ opcode = JEDEC_SE then
    (base ||| (1 <<< 5)) ||| (4 <<< 5)
  else base ||| (2 <<< 5)

/-- The `switch (writearr[0])` of `realtek_mst_i2c_spi_send_command`,
restricted to its effect on `max_timeout_mul`: only `JEDEC_CE_C7`
multiplies the initial value 1 by 20 before falling through. -/
def max_timeout_mul_of (opcode : Nat) : Int :=
  if opcode = JEDEC_CE_C7 then 20 else 1

/-- The staging loop `for (i = 0; i < writecnt; ++i) ret |=
write_register(fd, 0x64 + i, writearr[i + 1]);` of `send_command`
(`writecnt` here already decremented).  `k` is the number of remaining
iterations, `i` the current index. -/
def stageLoopF (o : Oracle) (writearr : List Nat) :
    Nat → Nat → Int → S → Int × S
  | 0, _, ret, s => (ret, s)
  | k + 1, i, ret, s =>
    let w := realtek_mst_i2c_spi_write_register o (0x64 + i) (writearr.getD (i + 1) 0) s
    stageLoopF o writearr k (i + 1) (ret ||| w.1) w.2

/-- The read-back loop `for (i = 0; i < readcnt; ++i) ret |=
read_register(fd, 0x67 + i, &readarr[i]);` of `send_command`.  Collects the
bytes read (a failed read leaves the C `readarr[i]` unchanged; the model
records `0` there). -/
def readBackLoopF (o : Oracle) :
    Nat → Nat → Int → List Nat → S → Int × List Nat × S
  | 0, _, ret, acc, s => (ret, acc, s)
  | k + 1, i, ret, acc, s =>
    let r := realtek_mst_i2c_spi_read_register o (0x67 + i) s
    readBackLoopF o k (i + 1) (ret ||| r.1) (acc ++ [r.2.1.getD 0]) r.2.2

/-- `realtek_mst_i2c_spi_send_command(flash, writecnt, readcnt, writearr,
readarr)`.  Returns the status, the bytes read back into `readarr`, and the
final state. -/
def realtek_mst_i2c_spi_send_command (o : Oracle) (writecnt readcnt : Nat)
    (writearr : List Nat) (s : S) : Int × List Nat × S :=
  if writecnt > 4 ∨ readcnt > 3 ∨ writecnt = 0 then (SPI_GENERIC_ERROR, [], s)
  else
    let opcode := writearr.headD 0
    if opcode = JEDEC_WREN then (0, [], s)
    else
      let wd := writecnt - 1
      let ctrl := ctrl_reg_val_of opcode wd readcnt
      let w1 := realtek_mst_i2c_spi_write_register o 0x60 ctrl s
      let w2 := realtek_mst_i2c_spi_write_register o 0x61 opcode w1.2
      let st := stageLoopF o writearr wd 0 (w1.1 ||| w2.1) w2.2
      let w4 := realtek_mst_i2c_spi_write_register o 0x60 (ctrl ||| 0x1) st.2
      let ret := st.1 ||| w4.1
      if ret ≠ 0 then (ret, [], w4.2)
      else
        let d := realtek_mst_i2c_spi_wait_command_done o 0x60 0x01 0
          (max_timeout_mul_of opcode) 0 w4.2
        if d.1 ≠ 0 then (d.1, [], d.2)
        else
          readBackLoopF o readcnt 0 0 [] d.2

/-- `realtek_mst_i2c_spi_map_page(fd, block_idx, page_idx, byte_idx)`. -/
def realtek_mst_i2c_spi_map_page (o : Oracle) (block_idx page_idx byte_idx : Nat)
    (s : S) : Int × S :=
  let w1 := realtek_mst_i2c_spi_write_register o MAP_PAGE_BYTE2 block_idx s
  let w2 := realtek_mst_i2c_spi_write_register o MAP_PAGE_BYTE1 page_idx w1.2
  let w3 := realtek_mst_i2c_spi_write_register o MAP_PAGE_BYTE0 byte_idx w2.2
  ((if (w1.1 ||| w2.1 ||| w3.1) ≠ 0 then SPI_GENERIC_ERROR else 0), w3.2)

/-- `realtek_mst_i2c_spi_write_page(fd, reg, buf, len)`: stage one chunk by
a single I2C write of the data-port register address followed by the
payload. -/
def realtek_mst_i2c_spi_write_page (o : Oracle) (buf : List Nat) (len : Nat)
    (s : S) : Int × S :=
  if len > PAGE_SIZE then (SPI_GENERIC_ERROR, s)
  else realtek_mst_i2c_spi_write_data o REGISTER_ADDRESS (MCU_DATA_PORT :: buf.take len) s

/-- The chunk loop `for (i = 0; i < len; i += PAGE_SIZE)` of
`realtek_mst_i2c_spi_read`: each iteration is one raw data-port read of
`min(len - i, PAGE_SIZE)` bytes; a failure returns immediately. -/
def readChunkLoopF (o : Oracle) (len : Nat) :
    Nat → Nat → Int → S → Int × S
  | 0, _, ret, s => (ret, s)
  | fuel + 1, i, ret, s =>
    if i < len then
      let r := realtek_mst_i2c_spi_read_data o REGISTER_ADDRESS (min (len - i) PAGE_SIZE) s
      let ret' := ret ||| r.1
      if ret' ≠ 0 then (ret', r.2)
      else readChunkLoopF o len fuel (i + PAGE_SIZE) ret' r.2
    else (ret, s)

/-- `realtek_mst_i2c_spi_read(flash, buf, start, len)`.  `start` is a C
`unsigned int`: `start--` wraps modulo `2^32`.  The status of the dummy
read of the data port is discarded, as in the C. -/
def realtek_mst_i2c_spi_read (o : Oracle) (start len : Nat) (s : S) : Int × S :=
  if start &&& 0xFF ≠ 0 then
    (o.defaultReadResult, ⟨s.n, s.tr ++ [Event.fallbackRead start len]⟩)
  else
    let start1 := (start + 0xFFFFFFFF) % 0x100000000
    let w1 := realtek_mst_i2c_spi_write_register o 0x60 0x46 s
    let w2 := realtek_mst_i2c_spi_write_register o 0x61 OPCODE_READ w1.2
    let block_idx := (start1 >>> 16) % 256
    let page_idx := (start1 >>> 8) % 256
    let byte_idx := start1 % 256
    let mp := realtek_mst_i2c_spi_map_page o block_idx page_idx byte_idx w2.2
    let w3 := realtek_mst_i2c_spi_write_register o 0x6A 0x03 mp.2
    let w4 := realtek_mst_i2c_spi_write_register o 0x60 0x47 w3.2
    let ret := w1.1 ||| w2.1 ||| mp.1 ||| w3.1 ||| w4.1
    if ret ≠ 0 then (ret, w4.2)
    else
      let d := realtek_mst_i2c_spi_wait_command_done o 0x60 0x01 0 1 0 w4.2
      if d.1 ≠ 0 then (d.1, d.2)
      else
        let dummy := realtek_mst_i2c_spi_read_register o MCU_DATA_PORT d.2
        readChunkLoopF o len (len + 1) 0 0 dummy.2.2

/-- The chunk loop `for (i = 0; i < len; i += PAGE_SIZE)` of
`realtek_mst_i2c_spi_write_256`.  Mirrors the C exactly: the short final
chunk first reprograms the page-size register `0x71`, the page window is
mapped unconditionally, and each `if (ret) break` is an early return. -/
def write256LoopF (o : Oracle) (buf : List Nat) (start len : Nat) :
    Nat → Nat → Int → S → Int × S
  | 0, _, ret, s => (ret, s)
  | fuel + 1, i, ret, s =>
    if i < len then
      let page_len := min (len - i) PAGE_SIZE
      let step71 : Int × S :=
        if len - i < PAGE_SIZE then
          realtek_mst_i2c_spi_write_register o 0x71 (page_len - 1) s
        else (0, s)
      let block_idx := (((start + i) % 0x100000000) >>> 16) % 256
      let page_idx := (((start + i) % 0x100000000) >>> 8) % 256
      let mp := realtek_mst_i2c_spi_map_page o block_idx page_idx 0 step71.2
      let ret1 := ret ||| step71.1 ||| mp.1
      if ret1 ≠ 0 then (ret1, mp.2)
      else
        let d := realtek_mst_i2c_spi_wait_command_done o MCU_MODE 0x10 0x10 1 0 mp.2
        let ret2 := ret1 ||| d.1
        if ret2 ≠ 0 then (ret2, d.2)
        else
          let wp := realtek_mst_i2c_spi_write_page o ((buf.drop i).take page_len) page_len d.2
          let ret3 := ret2 ||| wp.1
          if ret3 ≠ 0 then (ret3, wp.2)
          else
            let ex := realtek_mst_i2c_execute_write o wp.2
            let ret4 := ret3 ||| ex.1
            if ret4 ≠ 0 then (ret4, ex.2)
            else write256LoopF o buf start len fuel (i + PAGE_SIZE) ret4 ex.2
    else (ret, s)

/-- `realtek_mst_i2c_spi_write_256(flash, buf, start, len)`. -/
def realtek_mst_i2c_spi_write_256 (o : Oracle) (buf : List Nat) (start len : Nat)
    (s : S) : Int × S :=
  if start &&& 0xFF ≠ 0 then
    (o.defaultWriteResult, ⟨s.n, s.tr ++ [Event.fallbackWrite start len]⟩)
  else
    let dp := realtek_mst_i2c_spi_disable_protection o s
    if dp.1 ≠ 0 then (dp.1, dp.2)
    else
      let w1 := realtek_mst_i2c_spi_write_register o 0x6D 0x02 dp.2
      let w2 := realtek_mst_i2c_spi_write_register o 0x71 (PAGE_SIZE - 1) w1.2
      write256LoopF o buf start len (len + 1) 0 (w1.1 ||| w2.1) w2.2

/-! ### Concrete oracles used by the theorems -/

/-- Every transport operation succeeds; every read returns `0x01`, so a
poll with mask `0x01`, target `0` never completes. -/
def oracleNever1 : Oracle := ⟨fun _ => true, fun _ => 1, 0, 0⟩

/-- Every transport operation succeeds; every read returns `0x00`. -/
def oracleOk0 : Oracle := ⟨fun _ => true, fun _ => 0, 0, 0⟩

/-- Every transport operation succeeds; every read returns `0x10`, which
satisfies both completion polls of the bulk-write path. -/
def oracleOk16 : Oracle := ⟨fun _ => true, fun _ => 0x10, 0, 0⟩

/-- The very first transport operation fails; everything later succeeds
with read value `0`. -/
def oracleFail0 : Oracle := ⟨fun n => n != 0, fun _ => 0, 0, 0⟩

/-- Operation number 8 (the dummy data-port read of an aligned bulk read
of one page) fails; everything else succeeds with read value `0`. -/
def oracleDummyFail : Oracle := ⟨fun n => n != 8, fun _ => 0, 0, 0⟩

/-! ### Trace predicates -/

/-- Is the event a single-register read? -/
def isRegReadEv : Event → Bool
  | Event.regRead _ => true
  | _ => false

/-- Events relevant to bulk-write chunking: writes to the page-size
register `0x71` and raw data-port transfers. -/
def isChunkEv : Event → Bool
  | Event.regWrite reg _ => reg == 0x71
  | Event.dataWrite _ _ => true
  | _ => false

/-! ### Bitwise-or status kit

All statuses produced by the engine primitives are `0` or
`SPI_GENERIC_ERROR = -1`; these four lemmas cover every accumulation the
proofs need. -/

theorem zero_lor_int (x : Int) : (0 : Int) ||| x = x := by
  cases x with
  | ofNat n => show Int.lor _ _ = _; simp [Int.lor]
  | negSucc n => show Int.lor _ _ = _; simp [Int.lor, Nat.ldiff]

theorem lor_zero_int (x : Int) : x ||| (0 : Int) = x := by
  cases x with
  | ofNat n => show Int.lor _ _ = _; simp [Int.lor]
  | negSucc n => show Int.lor _ _ = _; simp [Int.lor, Nat.ldiff]

theorem neg_one_lor_int (x : Int) : (-1 : Int) ||| x = -1 := by
  have h : (-1 : Int) = Int.negSucc 0 := rfl
  rw [h]
  cases x with
  | ofNat n => show Int.lor _ _ = _; simp [Int.lor, Nat.ldiff]
  | negSucc n => show Int.lor _ _ = _; simp [Int.lor]

theorem lor_neg_one_int (x : Int) : x ||| (-1 : Int) = -1 := by
  have h : (-1 : Int) = Int.negSucc 0 := rfl
  rw [h]
  cases x with
  | ofNat n => show Int.lor _ _ = _; simp [Int.lor, Nat.ldiff]
  | negSucc n => show Int.lor _ _ = _; simp [Int.lor]

/-! ### Behaviour of the completion poller -/

/-- When every register read succeeds and the polled condition never
holds, the wait loop runs `tried` from its start value up to `bound`,
issuing one read per iteration, accumulating no error, and ending with a
value that still fails the condition. -/
theorem waitLoopF_never (o : Oracle) (offset mask target : Nat) (bound : Int)
    (hok : ∀ n, o.ok n = true)
    (hval : ∀ n, (o.val n % 256) &&& mask ≠ target) :
    ∀ (fuel : Nat) (tried : Int) (val : Nat) (s : S),
      tried < bound → (bound - tried).toNat ≤ fuel →
      ∃ vlast,
        waitLoopF o offset mask target bound fuel tried 0 val s =
          (bound, 0, vlast,
           ⟨s.n + (bound - tried).toNat,
            s.tr ++ List.replicate (bound - tried).toNat (Event.regRead offset)⟩) ∧
        (vlast &&& mask) ≠ target := by
  intro fuel
  induction fuel with
  | zero => intro tried val s h1 h2; omega
  | succ fuel ih =>
    intro tried val s h1 h2
    rw [waitLoopF]
    simp only [realtek_mst_i2c_spi_read_register, hok s.n, if_true, Option.getD_some,
      zero_lor_int, eq_self_iff_true, true_and, ne_eq, ite_not]
    rw [if_neg (by simpa using hval s.n)]
    by_cases hlt : tried + 1 < bound
    · rw [if_pos hlt]
      obtain ⟨v, heq, hv⟩ := ih (tried + 1) (o.val s.n % 256)
        ⟨s.n + 1, s.tr ++ [Event.regRead offset]⟩ hlt (by omega)
      refine ⟨v, ?_, hv⟩
      rw [heq]
      have hk : (bound - tried).toNat = (bound - (tried + 1)).toNat + 1 := by omega
      rw [hk]
      simp only [Prod.mk.injEq, S.mk.injEq]
      refine ⟨trivial, trivial, trivial, by omega, ?_⟩
      rw [List.replicate_succ, List.append_assoc]
      rfl
    · rw [if_neg hlt]
      have hb : tried + 1 = bound := by omega
      have hk : (bound - tried).toNat = 1 := by omega
      rw [hb, hk]
      exact ⟨o.val s.n % 256, rfl, hval s.n⟩

/-- Full behaviour of `realtek_mst_i2c_spi_wait_command_done` when every
read succeeds and the condition never holds: exactly `1000 * m` reads are
issued; the distinct timeout error is returned only when the multiplier is
`1` (since the C compares `tried` against the unscaled
`MAX_SPI_WAIT_RETRIES`), and `SPI_GENERIC_ERROR` otherwise. -/
theorem wait_never_done (o : Oracle) (offset mask target : Nat) (m : Int) (val0 : Nat) (s : S)
    (hok : ∀ n, o.ok n = true)
    (hval : ∀ n, (o.val n % 256) &&& mask ≠ target)
    (hm : 1 ≤ m) :
    realtek_mst_i2c_spi_wait_command_done o offset mask target m val0 s =
      ((if m = 1 then (-1000 : Int) else SPI_GENERIC_ERROR),
       ⟨s.n + (1000 * m).toNat,
        s.tr ++ List.replicate (1000 * m).toNat (Event.regRead offset)⟩) := by
  have hMAX : (MAX_SPI_WAIT_RETRIES : Int) = 1000 := rfl
  have hb : (0 : Int) < (MAX_SPI_WAIT_RETRIES : Int) * m := by rw [hMAX]; omega
  obtain ⟨v, heq, hv⟩ := waitLoopF_never o offset mask target ((MAX_SPI_WAIT_RETRIES : Int) * m)
    hok hval (((MAX_SPI_WAIT_RETRIES : Int) * m).toNat + 1) 0 val0 s hb (by omega)
  simp only [realtek_mst_i2c_spi_wait_command_done]
  rw [heq]
  simp only [hMAX, sub_zero]
  by_cases hm1 : m = 1
  · subst hm1
    norm_num
  · rw [if_neg (by omega : ¬ (1000 : Int) * m = 1000), if_neg hm1]
    simp only [ne_eq, hv, not_false_eq_true, if_pos]

/-- C1 (amended): if every register read succeeds but the polled condition
`(value & mask) == target` never holds, `realtek_mst_i2c_spi_wait_command_done`
performs exactly `1000 * m` read attempts for every multiplier `m ≥ 1`;
however the distinct timeout error `-MAX_SPI_WAIT_RETRIES` is returned only
for `m = 1` — for `m ≥ 2` the final `tried` is `1000 * m ≠ 1000`, so the
function returns the generic condition-not-met error instead. -/
theorem C1_wait_exhaustion (o : Oracle) (offset mask target : Nat) (m : Int)
    (val0 : Nat) (s : S)
    (hok : ∀ n, o.ok n = true)
    (hval : ∀ n, (o.val n % 256) &&& mask ≠ target)
    (hm : 1 ≤ m) :
    (realtek_mst_i2c_spi_wait_command_done o offset mask target m val0 s).2.tr
        = s.tr ++ List.replicate (1000 * m).toNat (Event.regRead offset) ∧
    (realtek_mst_i2c_spi_wait_command_done o offset mask target m val0 s).1
        = (if m = 1 then (-1000 : Int) else SPI_GENERIC_ERROR) := by
  rw [wait_never_done o offset mask target m val0 s hok hval hm]
  exact ⟨rfl, rfl⟩

/-- C1 witness: at multiplier 1 with reads always returning `0x01` against
mask `0x01`, target `0`, the poller issues exactly 1000 reads and returns
the timeout error `-1000`. -/
theorem C1_wait_exhaustion_witness :
    (realtek_mst_i2c_spi_wait_command_done oracleNever1 0x60 0x01 0 1 0 S0).2.tr
        = List.replicate 1000 (Event.regRead 0x60) ∧
    (realtek_mst_i2c_spi_wait_command_done oracleNever1 0x60 0x01 0 1 0 S0).1 = -1000 := by
  have h := C1_wait_exhaustion oracleNever1 0x60 0x01 0 1 0 S0
    (fun _ => rfl) (fun _ => by show (1 % 256) &&& 1 ≠ (0 : Nat); decide) (by norm_num)
  have h1000 : ((1000 : Int) * 1).toNat = 1000 := by decide
  refine ⟨?_, ?_⟩
  · rw [h.1, h1000]; rfl
  · rw [h.2]; rfl

/-- C1 counterexample: at multiplier 2 with reads always succeeding and
never matching, the poller performs 2000 read attempts but returns the
generic error `-1`, not the distinct timeout error `-1000` the claim
requires. -/
theorem C1_wait_exhaustion_cex :
    (realtek_mst_i2c_spi_wait_command_done oracleNever1 0x60 0x01 0 2 0 S0).1
        = SPI_GENERIC_ERROR ∧
    (realtek_mst_i2c_spi_wait_command_done oracleNever1 0x60 0x01 0 2 0 S0).1
        ≠ -(MAX_SPI_WAIT_RETRIES : Int) ∧
    (realtek_mst_i2c_spi_wait_command_done oracleNever1 0x60 0x01 0 2 0 S0).2.tr.length
        = 2000 := by
  have h := wait_never_done oracleNever1 0x60 0x01 0 2 0 S0
    (fun _ => rfl) (fun _ => by show (1 % 256) &&& 1 ≠ (0 : Nat); decide) (by norm_num)
  rw [h]
  refine ⟨by norm_num, by norm_num [SPI_GENERIC_ERROR, MAX_SPI_WAIT_RETRIES], ?_⟩
  show (S0.tr ++ List.replicate ((1000 : Int) * 2).toNat (Event.regRead 0x60)).length = 2000
  have h2000 : ((1000 : Int) * 2).toNat = 2000 := by decide
  rw [h2000, List.length_append, List.length_replicate]
  rfl

/-- C6: for every start address whose low byte is nonzero, the bulk read
delegates entirely to `default_spi_read` and the bulk write to
`default_spi_write_256`: each returns the fallback's result and issues no
register or data-port traffic of its own (the only trace event is the
delegation itself). -/
theorem C6_unaligned_fallback (o : Oracle) (buf : List Nat) (start len : Nat) (s : S)
    (h : start &&& 0xFF ≠ 0) :
    realtek_mst_i2c_spi_read o start len s
        = (o.defaultReadResult, ⟨s.n, s.tr ++ [Event.fallbackRead start len]⟩) ∧
    realtek_mst_i2c_spi_write_256 o buf start len s
        = (o.defaultWriteResult, ⟨s.n, s.tr ++ [Event.fallbackWrite start len]⟩) := by
  constructor
  · unfold realtek_mst_i2c_spi_read
    rw [if_pos h]
  · unfold realtek_mst_i2c_spi_write_256
    rw [if_pos h]

/-- C6 witness: at the unaligned address 1, both bulk operations return
exactly the fallback results and add only the delegation event. -/
theorem C6_unaligned_fallback_witness :
    realtek_mst_i2c_spi_read oracleOk0 1 5 S0
        = (oracleOk0.defaultReadResult, ⟨0, [Event.fallbackRead 1 5]⟩) ∧
    realtek_mst_i2c_spi_write_256 oracleOk0 [1, 2, 3] 1 5 S0
        = (oracleOk0.defaultWriteResult, ⟨0, [Event.fallbackWrite 1 5]⟩) :=
  C6_unaligned_fallback oracleOk0 [1, 2, 3] 1 5 S0 (by decide)

/-- C8: a `send_command` whose opcode byte is `JEDEC_WREN` and whose
counts satisfy the precondition returns success `0`, reads back nothing,
and leaves the state untouched: zero register reads or writes. -/
theorem C8_wren_no_traffic (o : Oracle) (writecnt readcnt : Nat) (rest : List Nat) (s : S)
    (h1 : 1 ≤ writecnt) (h2 : writecnt ≤ 4) (h3 : readcnt ≤ 3) :
    realtek_mst_i2c_spi_send_command o writecnt readcnt (JEDEC_WREN :: rest) s
      = (0, [], s) := by
  unfold realtek_mst_i2c_spi_send_command
  rw [if_neg (by omega)]
  simp only [List.headD_cons, eq_self_iff_true, if_true]

/-- C8 witness: `send_command` with `writecnt = 2`, `readcnt = 1` and the
write-enable opcode returns `(0, [], S0)`. -/
theorem C8_wren_no_traffic_witness :
    realtek_mst_i2c_spi_send_command oracleOk0 2 1 [JEDEC_WREN, 0xAA] S0
      = (0, [], S0) :=
  C8_wren_no_traffic oracleOk0 2 1 [0xAA] S0 (by norm_num) (by norm_num) (by norm_num)

/-! ### The staging phase of `send_command` -/

/-- The staging loop writes registers `0x64 + i` for the `k` requested
indices, in order, advancing the operation counter by `k`, regardless of
any failures. -/
theorem stageLoopF_state (o : Oracle) (arr : List Nat) :
    ∀ (k i : Nat) (ret : Int) (s : S),
      (stageLoopF o arr k i ret s).2 =
        ⟨s.n + k,
         s.tr ++ (List.range' i k).map
           (fun j => Event.regWrite (0x64 + j) (arr.getD (j + 1) 0))⟩ := by
  intro k
  induction k with
  | zero => intro i ret s; simp [stageLoopF]
  | succ k ih =>
    intro i ret s
    rw [stageLoopF, ih]
    simp only [realtek_mst_i2c_spi_write_register]
    rw [List.range'_succ i k 1]
    simp only [List.map_cons, S.mk.injEq]
    constructor
    · omega
    · rw [List.append_assoc]
      rfl

/-- An error already accumulated before the staging loop is preserved
through it (`-1` is absorbing for bitwise or). -/
theorem stageLoopF_status_neg_one (o : Oracle) (arr : List Nat) :
    ∀ (k i : Nat) (s : S), (stageLoopF o arr k i (-1) s).1 = -1 := by
  intro k
  induction k with
  | zero => intro i s; rfl
  | succ k ih =>
    intro i s
    rw [stageLoopF]
    rw [neg_one_lor_int]
    exact ih (i + 1) _

/-- If the `j`-th of the `k` staged data writes fails, the staging loop's
accumulated status is `-1`. -/
theorem stageLoopF_status_fail (o : Oracle) (arr : List Nat) :
    ∀ (k : Nat) (j : Nat) (i : Nat) (ret : Int) (s : S), j < k → o.ok (s.n + j) = false →
      (stageLoopF o arr k i ret s).1 = -1 := by
  intro k
  induction k with
  | zero => intro j i ret s hj _; omega
  | succ k ih =>
    intro j i ret s hj hfail
    rw [stageLoopF]
    cases j with
    | zero =>
      simp only [Nat.add_zero] at hfail
      simp only [realtek_mst_i2c_spi_write_register, hfail, Bool.false_eq_true, if_false,
        SPI_GENERIC_ERROR]
      rw [lor_neg_one_int]
      exact stageLoopF_status_neg_one o arr k (i + 1) _
    | succ j =>
      simp only [realtek_mst_i2c_spi_write_register]
      refine ih j (i + 1) _ _ (by omega) ?_
      have h : s.n + 1 + j = s.n + (j + 1) := by omega
      show o.ok (s.n + 1 + j) = false
      rw [h]
      exact hfail

/-- C2 (amended): when any of the staging writes of `send_command` (the
control word to `0x60`, the opcode byte to `0x61`, or a data byte to
`0x64+i`) fails, the function still issues the second control-word write
with the start/end bit set (the trigger), and only then short-circuits: it
returns the accumulated error without polling for completion or reading
back any response byte.  The final trace ends exactly at the trigger
write. -/
theorem C2_stage_failure_short_circuit (o : Oracle) (writecnt readcnt : Nat)
    (opcode : Nat) (rest : List Nat)
    (h1 : 1 ≤ writecnt) (h2 : writecnt ≤ 4) (h3 : readcnt ≤ 3)
    (hop : opcode ≠ JEDEC_WREN)
    (j : Nat) (hj : j < writecnt + 1) (hfail : o.ok j = false) :
    realtek_mst_i2c_spi_send_command o writecnt readcnt (opcode :: rest) S0 =
      (-1, [],
       ⟨writecnt + 2,
        Event.regWrite 0x60 (ctrl_reg_val_of opcode (writecnt - 1) readcnt)
          :: Event.regWrite 0x61 opcode
          :: ((List.range' 0 (writecnt - 1)).map
               (fun i => Event.regWrite (0x64 + i) ((opcode :: rest).getD (i + 1) 0))
              ++ [Event.regWrite 0x60 (ctrl_reg_val_of opcode (writecnt - 1) readcnt ||| 1)])⟩) := by
  unfold realtek_mst_i2c_spi_send_command
  rw [if_neg (by omega)]
  simp only [List.headD_cons]
  rw [if_neg hop]
  simp only [realtek_mst_i2c_spi_write_register, S0, List.nil_append, List.singleton_append]
  have hst : (stageLoopF o (opcode :: rest) (writecnt - 1) 0
      ((if o.ok 0 = true then (0 : Int) else SPI_GENERIC_ERROR) |||
       (if o.ok (0 + 1) = true then (0 : Int) else SPI_GENERIC_ERROR))
      ⟨0 + 1 + 1, [Event.regWrite 0x60 (ctrl_reg_val_of opcode (writecnt - 1) readcnt),
           Event.regWrite 0x61 opcode]⟩).1 = -1 := by
    rcases Nat.lt_or_ge j 2 with hj2 | hj2
    · have hinit : ((if o.ok 0 = true then (0 : Int) else SPI_GENERIC_ERROR) |||
          (if o.ok (0 + 1) = true then (0 : Int) else SPI_GENERIC_ERROR)) = -1 := by
        interval_cases j
        · rw [hfail]
          simp only [Bool.false_eq_true, if_false, SPI_GENERIC_ERROR]
          rw [neg_one_lor_int]
        · rw [hfail]
          simp only [Bool.false_eq_true, if_false, SPI_GENERIC_ERROR]
          rw [lor_neg_one_int]
      rw [hinit]
      exact stageLoopF_status_neg_one o (opcode :: rest) (writecnt - 1) 0 _
    · refine stageLoopF_status_fail o (opcode :: rest) (writecnt - 1) (j - 2) 0 _ _ (by omega) ?_
      show o.ok (0 + 1 + 1 + (j - 2)) = false
      have h : 0 + 1 + 1 + (j - 2) = j := by omega
      rw [h]; exact hfail
  rw [hst, neg_one_lor_int]
  rw [if_pos (by norm_num : (-1 : Int) ≠ 0)]
  rw [stageLoopF_state]
  simp only [Prod.mk.injEq, S.mk.injEq]
  refine ⟨trivial, trivial, by omega, ?_⟩
  simp [List.append_assoc]

/-- C2 witness: with the very first transport operation failing (staging
the control word), a one-byte `send_command` of opcode `0x9F` issues
exactly the three writes — control word `0x40`, opcode, trigger `0x41` —
and returns the error without any polling read. -/
theorem C2_stage_failure_short_circuit_witness :
    realtek_mst_i2c_spi_send_command oracleFail0 1 0 [0x9F] S0 =
      (-1, [], ⟨3, [Event.regWrite 0x60 0x40, Event.regWrite 0x61 0x9F,
                    Event.regWrite 0x60 0x41]⟩) := by
  have h := C2_stage_failure_short_circuit oracleFail0 1 0 0x9F []
    (by norm_num) (by norm_num) (by norm_num) (by decide) 0 (by norm_num) (by decide)
  rw [h]
  decide

/-- C2 counterexample: the claim says the trigger write (control word with
the start/end bit, value `0x41` here) is not issued after a staging
failure; but with the control-word staging write failing, the trigger
write is present in the trace. -/
theorem C2_stage_failure_short_circuit_cex :
    oracleFail0.ok 0 = false ∧
    (realtek_mst_i2c_spi_send_command oracleFail0 1 0 [0x9F] S0).1 ≠ 0 ∧
    Event.regWrite 0x60 0x41 ∈
      (realtek_mst_i2c_spi_send_command oracleFail0 1 0 [0x9F] S0).2.2.tr := by
  decide

/-! ### The poll budget of `send_command` -/

/-- A one-byte `send_command` against an oracle whose reads always succeed
but always keep bit 0 set (so the completion poll never finishes) stages
the control word, the opcode and the trigger, then spends its entire poll
budget: `1000 * max_timeout_mul_of op` reads of register `0x60`. -/
theorem send_command_poll_budget (o : Oracle) (op : Nat)
    (hok : ∀ n, o.ok n = true)
    (hval : ∀ n, (o.val n % 256) &&& 1 ≠ 0)
    (hop : op ≠ JEDEC_WREN) :
    (realtek_mst_i2c_spi_send_command o 1 0 [op] S0).2.2.tr =
      [Event.regWrite 0x60 (ctrl_reg_val_of op 0 0),
       Event.regWrite 0x61 op,
       Event.regWrite 0x60 (ctrl_reg_val_of op 0 0 ||| 1)]
        ++ List.replicate (1000 * max_timeout_mul_of op).toNat (Event.regRead 0x60) := by
  have hm : 1 ≤ max_timeout_mul_of op := by
    unfold max_timeout_mul_of; split <;> norm_num
  unfold realtek_mst_i2c_spi_send_command
  rw [if_neg (by norm_num)]
  simp only [List.headD_cons]
  rw [if_neg hop]
  simp only [realtek_mst_i2c_spi_write_register, S0, List.nil_append, List.singleton_append,
    hok, eq_self_iff_true, if_true, stageLoopF, zero_lor_int, lor_zero_int]
  rw [wait_never_done o 0x60 1 0 (max_timeout_mul_of op) 0 _ hok hval hm]
  by_cases hc : op = JEDEC_CE_C7
  · simp only [hc, max_timeout_mul_of, eq_self_iff_true, if_true]
    norm_num
    rw [if_neg (by norm_num [SPI_GENERIC_ERROR])]
  · simp only [max_timeout_mul_of, hc, if_false]
    norm_num

/-- C3 (amended): in `send_command`, the poll retry budget is multiplied
by 20 exactly for the chip-erase opcode `JEDEC_CE_C7`; every other opcode
— including the second chip-erase opcode `JEDEC_CE_60` and the block- and
sector-erase opcodes — uses multiplier 1.  Measured observably: with an
always-succeeding, never-completing oracle, the number of poll reads is
20000 for `JEDEC_CE_C7` and 1000 for every other non-WREN opcode. -/
theorem C3_chip_erase_multiplier (o : Oracle) (op : Nat)
    (hok : ∀ n, o.ok n = true)
    (hval : ∀ n, (o.val n % 256) &&& 1 ≠ 0)
    (hop : op ≠ JEDEC_WREN) :
    ((realtek_mst_i2c_spi_send_command o 1 0 [op] S0).2.2.tr.filter isRegReadEv).length
      = if op = JEDEC_CE_C7 then 20000 else 1000 := by
  rw [send_command_poll_budget o op hok hval hop]
  rw [List.filter_append, List.filter_replicate]
  simp only [isRegReadEv, List.filter_cons, List.filter_nil, Bool.false_eq_true, if_false,
    if_true, List.nil_append, List.length_append, List.length_nil, List.length_replicate]
  unfold max_timeout_mul_of
  split <;> decide

/-- C3 witness: the chip-erase opcode `0xC7` makes the never-satisfied
completion poll issue exactly 20000 reads. -/
theorem C3_chip_erase_multiplier_witness :
    ((realtek_mst_i2c_spi_send_command oracleNever1 1 0 [JEDEC_CE_C7] S0).2.2.tr.filter
        isRegReadEv).length = 20000 := by
  have h := C3_chip_erase_multiplier oracleNever1 JEDEC_CE_C7 (fun _ => rfl)
    (fun _ => by show (1 % 256) &&& 1 ≠ 0; decide) (by decide)
  rw [h]
  decide

/-- C3 counterexample: `JEDEC_CE_60` is a chip-erase opcode, yet its poll
budget is the unscaled 1000 reads, not the 20-fold budget the claim
asserts for every chip-erase opcode. -/
theorem C3_chip_erase_multiplier_cex :
    ((realtek_mst_i2c_spi_send_command oracleNever1 1 0 [JEDEC_CE_60] S0).2.2.tr.filter
        isRegReadEv).length = 1000 ∧
    ((realtek_mst_i2c_spi_send_command oracleNever1 1 0 [JEDEC_CE_60] S0).2.2.tr.filter
        isRegReadEv).length ≠ 20 * 1000 := by
  have h := send_command_poll_budget oracleNever1 JEDEC_CE_60 (fun _ => rfl)
    (fun _ => by show (1 % 256) &&& 1 ≠ 0; decide) (by decide)
  rw [h]
  rw [List.filter_append, List.filter_replicate]
  simp only [isRegReadEv, List.filter_cons, List.filter_nil, Bool.false_eq_true, if_false,
    if_true, List.nil_append, List.length_append, List.length_nil, List.length_replicate]
  constructor <;> decide

/-! ### Trace-extension lemmas: the poller and read-back only read -/

/-- The wait loop only ever appends reads of its polled register to the
trace. -/
theorem waitLoopF_reads_only (o : Oracle) (offset mask target : Nat) (bound : Int) :
    ∀ (fuel : Nat) (tried ret : Int) (val : Nat) (s : S),
      ∃ k, (waitLoopF o offset mask target bound fuel tried ret val s).2.2.2.tr
        = s.tr ++ List.replicate k (Event.regRead offset) := by
  intro fuel
  induction fuel with
  | zero => intro tried ret val s; exact ⟨0, by rw [waitLoopF]; simp⟩
  | succ fuel ih =>
    intro tried ret val s
    rw [waitLoopF]
    simp only [realtek_mst_i2c_spi_read_register]
    by_cases hc : (ret ||| (if o.ok s.n = true then (0 : Int) else SPI_GENERIC_ERROR)) = 0 ∧
        (((if o.ok s.n = true then some (o.val s.n % 256) else none).getD val) &&& mask) ≠ target
    · rw [if_pos hc]
      by_cases hlt : tried + 1 < bound
      · rw [if_pos hlt]
        obtain ⟨k, hk⟩ := ih (tried + 1) _ _ ⟨s.n + 1, s.tr ++ [Event.regRead offset]⟩
        refine ⟨k + 1, ?_⟩
        rw [hk, List.replicate_succ, List.append_assoc]
        rfl
      · rw [if_neg hlt]
        exact ⟨1, rfl⟩
    · rw [if_neg hc]
      exact ⟨1, rfl⟩

/-- `wait_command_done` only appends reads of its polled register to the
trace, whatever it returns. -/
theorem wait_reads_only (o : Oracle) (offset mask target : Nat) (mult : Int) (val0 : Nat)
    (s : S) :
    ∃ k, (realtek_mst_i2c_spi_wait_command_done o offset mask target mult val0 s).2.tr
      = s.tr ++ List.replicate k (Event.regRead offset) := by
  unfold realtek_mst_i2c_spi_wait_command_done
  obtain ⟨k, hk⟩ := waitLoopF_reads_only o offset mask target
    ((MAX_SPI_WAIT_RETRIES : Int) * mult) (((MAX_SPI_WAIT_RETRIES : Int) * mult).toNat + 1)
    0 0 val0 s
  refine ⟨k, ?_⟩
  dsimp only []
  split
  · exact hk
  · split
    · exact hk
    · exact hk

/-- The read-back loop of `send_command` only appends register reads. -/
theorem readBackLoopF_reads (o : Oracle) :
    ∀ (k i : Nat) (ret : Int) (acc : List Nat) (s : S),
      ∃ tl, (readBackLoopF o k i ret acc s).2.2.tr = s.tr ++ tl ∧
        ∀ e ∈ tl, ∃ r, e = Event.regRead r := by
  intro k
  induction k with
  | zero => intro i ret acc s; exact ⟨[], by rw [readBackLoopF]; simp, by simp⟩
  | succ k ih =>
    intro i ret acc s
    rw [readBackLoopF]
    simp only [realtek_mst_i2c_spi_read_register]
    obtain ⟨tl, htl, hall⟩ := ih (i + 1) _ _ ⟨s.n + 1, s.tr ++ [Event.regRead (0x67 + i)]⟩
    refine ⟨Event.regRead (0x67 + i) :: tl, ?_, ?_⟩
    · rw [htl]
      simp
    · intro e he
      rcases List.mem_cons.mp he with h | h
      · exact ⟨0x67 + i, h⟩
      · exact hall e h

/-- Whatever happens after the trigger write of `send_command` — the
completion poll alone, or the poll followed by the read-back — only
register reads are appended to the trace. -/
theorem wait_tr_ext (o : Oracle) (offset mask target : Nat) (mul : Int) (val0 : Nat)
    (s4 : S) :
    ∃ tl, (realtek_mst_i2c_spi_wait_command_done o offset mask target mul val0 s4).2.tr
        = s4.tr ++ tl ∧ ∀ e ∈ tl, ∃ r, e = Event.regRead r := by
  obtain ⟨k, hk⟩ := wait_reads_only o offset mask target mul val0 s4
  refine ⟨List.replicate k (Event.regRead offset), hk, ?_⟩
  intro e he
  exact ⟨offset, List.eq_of_mem_replicate he⟩

/-- After the completion poll, the read-back loop still only appends
register reads relative to the state at the trigger. -/
theorem readback_after_wait_tr_ext (o : Oracle) (mul : Int) (readcnt val0 : Nat) (s4 : S) :
    ∃ tl, (readBackLoopF o readcnt 0 0 []
        (realtek_mst_i2c_spi_wait_command_done o 0x60 0x01 0 mul val0 s4).2).2.2.tr
        = s4.tr ++ tl ∧ ∀ e ∈ tl, ∃ r, e = Event.regRead r := by
  obtain ⟨k, hk⟩ := wait_reads_only o 0x60 0x01 0 mul val0 s4
  obtain ⟨tl, htl, hall⟩ := readBackLoopF_reads o readcnt 0 0 []
    (realtek_mst_i2c_spi_wait_command_done o 0x60 0x01 0 mul val0 s4).2
  refine ⟨List.replicate k (Event.regRead 0x60) ++ tl, ?_, ?_⟩
  · rw [htl, hk, List.append_assoc]
  · intro e he
    rcases List.mem_append.mp he with h | h
    · exact ⟨0x60, List.eq_of_mem_replicate h⟩
    · exact hall e h

/-- The visible trace of every non-WREN `send_command` run inside the
precondition: control-word write, opcode write, staged data writes, the
trigger write — followed only by register reads (poll and read-back). -/
theorem send_command_trace_shape (o : Oracle) (writecnt readcnt : Nat) (writearr : List Nat)
    (hguard : ¬(writecnt > 4 ∨ readcnt > 3 ∨ writecnt = 0))
    (hne : writearr.headD 0 ≠ JEDEC_WREN) :
    ∃ tl,
      (realtek_mst_i2c_spi_send_command o writecnt readcnt writearr S0).2.2.tr =
        (Event.regWrite 0x60 (ctrl_reg_val_of (writearr.headD 0) (writecnt - 1) readcnt)
          :: Event.regWrite 0x61 (writearr.headD 0)
          :: ((List.range' 0 (writecnt - 1)).map
               (fun j => Event.regWrite (0x64 + j) (writearr.getD (j + 1) 0))
              ++ [Event.regWrite 0x60
                    (ctrl_reg_val_of (writearr.headD 0) (writecnt - 1) readcnt ||| 1)]))
          ++ tl ∧
      ∀ e ∈ tl, ∃ r, e = Event.regRead r := by
  unfold realtek_mst_i2c_spi_send_command
  rw [if_neg hguard, if_neg hne]
  simp only [realtek_mst_i2c_spi_write_register, S0, List.nil_append, List.singleton_append]
  repeat' split
  all_goals first
    | (refine ⟨[], ?_, by simp⟩; rw [stageLoopF_state]; simp [List.append_assoc]; done)
    | (rw [stageLoopF_state]; exact wait_tr_ext o 0x60 0x01 0 _ 0 _)
    | (rw [stageLoopF_state]; exact readback_after_wait_tr_ext o _ readcnt 0 _)

/-- The bit layout of the control word: whatever opcode category is ORed
into bits 5–7, and whether or not the start/end bit 0 is set, bits 3–4
hold the data-byte count and bits 1–2 the read count. -/
theorem ctrl_reg_val_bits (op wd rc : Nat) (hw : wd ≤ 3) (hr : rc ≤ 3) :
    ((ctrl_reg_val_of op wd rc >>> 3) &&& 3 = wd ∧
     (ctrl_reg_val_of op wd rc >>> 1) &&& 3 = rc) ∧
    (((ctrl_reg_val_of op wd rc ||| 1) >>> 3) &&& 3 = wd ∧
     ((ctrl_reg_val_of op wd rc ||| 1) >>> 1) &&& 3 = rc) := by
  unfold ctrl_reg_val_of
  split
  · interval_cases wd <;> interval_cases rc <;> exact ⟨⟨by decide, by decide⟩, by decide, by decide⟩
  · split
    · interval_cases wd <;> interval_cases rc <;> exact ⟨⟨by decide, by decide⟩, by decide, by decide⟩
    · interval_cases wd <;> interval_cases rc <;> exact ⟨⟨by decide, by decide⟩, by decide, by decide⟩

/-- C4: every call with `writecnt = 0`, `writecnt > 4` or `readcnt > 3` is
rejected with the generic error before any register traffic; and for every
call within the precondition, every control word written to register
`0x60` during the run carries the data-byte count `writecnt - 1` in bits
3–4 and `readcnt` in bits 1–2. -/
theorem C4_control_word_counts (o : Oracle) (writecnt readcnt : Nat) (writearr : List Nat)
    (s : S) :
    ((writecnt = 0 ∨ writecnt > 4 ∨ readcnt > 3) →
      realtek_mst_i2c_spi_send_command o writecnt readcnt writearr s
        = (SPI_GENERIC_ERROR, [], s)) ∧
    (1 ≤ writecnt → writecnt ≤ 4 → readcnt ≤ 3 →
      ∀ v, Event.regWrite 0x60 v ∈
          (realtek_mst_i2c_spi_send_command o writecnt readcnt writearr S0).2.2.tr →
        (v >>> 3) &&& 3 = writecnt - 1 ∧ (v >>> 1) &&& 3 = readcnt) := by
  constructor
  · intro h
    unfold realtek_mst_i2c_spi_send_command
    rw [if_pos (by omega)]
  · intro h1 h2 h3 v hv
    by_cases hW : writearr.headD 0 = JEDEC_WREN
    · exfalso
      unfold realtek_mst_i2c_spi_send_command at hv
      rw [if_neg (by omega), if_pos hW] at hv
      simp [S0] at hv
    · obtain ⟨tl, htr, hall⟩ := send_command_trace_shape o writecnt readcnt writearr
        (by omega) hW
      rw [htr] at hv
      have hvv : v = ctrl_reg_val_of (writearr.headD 0) (writecnt - 1) readcnt ∨
          v = ctrl_reg_val_of (writearr.headD 0) (writecnt - 1) readcnt ||| 1 := by
        rcases List.mem_append.mp hv with h | h
        · rcases List.mem_cons.mp h with h | h
          · left
            simpa using h
          rcases List.mem_cons.mp h with h | h
          · exfalso
            simp [Event.regWrite.injEq] at h
          rcases List.mem_append.mp h with h | h
          · exfalso
            obtain ⟨j, hj, hEq⟩ := List.mem_map.mp h
            simp only [Event.regWrite.injEq] at hEq
            omega
          · right
            simpa using h
        · exfalso
          obtain ⟨r, hr⟩ := hall _ h
          simp at hr
      have hb := ctrl_reg_val_bits (writearr.headD 0) (writecnt - 1) readcnt (by omega) h3
      rcases hvv with rfl | rfl
      · exact hb.1
      · exact hb.2

/-- C4 witness: for `writecnt = 3`, `readcnt = 2` every control word
written to `0x60` carries counts `(2, 2)`; and `writecnt = 5` is rejected
with no traffic. -/
theorem C4_control_word_counts_witness :
    (∀ v, Event.regWrite 0x60 v ∈
        (realtek_mst_i2c_spi_send_command oracleOk0 3 2 [0x9F, 1, 2] S0).2.2.tr →
      (v >>> 3) &&& 3 = 2 ∧ (v >>> 1) &&& 3 = 2) ∧
    realtek_mst_i2c_spi_send_command oracleOk0 5 2 [0x9F] S0
      = (SPI_GENERIC_ERROR, [], S0) := by
  constructor
  · exact fun v hv => (C4_control_word_counts oracleOk0 3 2 [0x9F, 1, 2] S0).2
      (by omega) (by omega) (by omega) v hv
  · exact (C4_control_word_counts oracleOk0 5 2 [0x9F] S0).1 (by omega)

/-! ### Protection disable, bulk read -/

/-- Status of the `j`-th primitive operation as the C primitives report
it: `0` on success, `SPI_GENERIC_ERROR` on failure. -/
def opStatus (o : Oracle) (j : Nat) : Int := if o.ok j then 0 else SPI_GENERIC_ERROR

/-- `Option.getD` pushed through an if-then-else of `some`/`none`. -/
theorem getD_ite_some_none (c : Prop) [Decidable c] (a d : Nat) :
    (if c then some a else none).getD d = if c then a else d := by
  split <;> rfl

/-- C7: `disable_protection` always performs, unconditionally and in this
order: the address-setup writes `0xF4=0x9F, 0xF5=0x10, 0xF4=0xAB`, one
read of `0xF5`, the same three address-setup writes a second time, the
write-back of the read value with its lower 3 bits forced to `001`, then
the read-modify-write of `0xD7`.  The returned status is the bitwise OR of
all ten step statuses. -/
theorem C7_disable_protection_sequence (o : Oracle) :
    (realtek_mst_i2c_spi_disable_protection o S0).2.tr =
      [Event.regWrite 0xF4 0x9F, Event.regWrite 0xF5 0x10, Event.regWrite 0xF4 0xAB,
       Event.regRead 0xF5,
       Event.regWrite 0xF4 0x9F, Event.regWrite 0xF5 0x10, Event.regWrite 0xF4 0xAB,
       Event.regWrite 0xF5 (((if o.ok 3 = true then o.val 3 % 256 else 0) &&& 0xF8) ||| 0x01),
       Event.regRead 0xD7,
       Event.regWrite 0xD7 (((if o.ok 8 = true then o.val 8 % 256
          else if o.ok 3 = true then o.val 3 % 256 else 0) &&& 0xFE) ||| 0x01)] ∧
    (realtek_mst_i2c_spi_disable_protection o S0).1 =
      opStatus o 0 ||| opStatus o 1 ||| opStatus o 2 ||| opStatus o 3 ||| opStatus o 4 |||
      opStatus o 5 ||| opStatus o 6 ||| opStatus o 7 ||| opStatus o 8 ||| opStatus o 9 := by
  constructor
  · simp [realtek_mst_i2c_spi_disable_protection, realtek_mst_i2c_spi_write_register,
      realtek_mst_i2c_spi_read_register, S0, getD_ite_some_none]
  · simp [realtek_mst_i2c_spi_disable_protection, realtek_mst_i2c_spi_write_register,
      realtek_mst_i2c_spi_read_register, S0, opStatus]

/-- The bulk-read chunk loop only appends events to the trace. -/
theorem readChunkLoopF_ext (o : Oracle) (len : Nat) :
    ∀ (fuel i : Nat) (ret : Int) (s : S),
      ∃ tl, (readChunkLoopF o len fuel i ret s).2.tr = s.tr ++ tl := by
  intro fuel
  induction fuel with
  | zero => intro i ret s; exact ⟨[], by rw [readChunkLoopF]; simp⟩
  | succ fuel ih =>
    intro i ret s
    rw [readChunkLoopF]
    by_cases hi : i < len
    · rw [if_pos hi]
      simp only [realtek_mst_i2c_spi_read_data]
      by_cases hr : (ret ||| (if o.ok s.n = true then (0 : Int) else SPI_GENERIC_ERROR)) ≠ 0
      · rw [if_pos hr]
        exact ⟨[Event.dataRead REGISTER_ADDRESS (min (len - i) PAGE_SIZE)], rfl⟩
      · rw [if_neg hr]
        obtain ⟨tl, htl⟩ := ih (i + PAGE_SIZE) _
          ⟨s.n + 1, s.tr ++ [Event.dataRead REGISTER_ADDRESS (min (len - i) PAGE_SIZE)]⟩
        refine ⟨Event.dataRead REGISTER_ADDRESS (min (len - i) PAGE_SIZE) :: tl, ?_⟩
        rw [htl]
        simp
    · rw [if_neg hi]
      exact ⟨[], by simp⟩

/-- Everything the aligned bulk-read path does after programming the page
window and triggering execution — the completion poll, the dummy
data-port read, and the chunk reads — only appends to the trace. -/
theorem read_after_prefix_ext (o : Oracle) (len : Nat) (ret : Int) (s7 : S) :
    ∃ rest, ((if ret ≠ 0 then (ret, s7)
      else
        let d := realtek_mst_i2c_spi_wait_command_done o 0x60 0x01 0 1 0 s7
        if d.1 ≠ 0 then (d.1, d.2)
        else
          let dummy := realtek_mst_i2c_spi_read_register o MCU_DATA_PORT d.2
          readChunkLoopF o len (len + 1) 0 0 dummy.2.2) : Int × S).2.tr
      = s7.tr ++ rest := by
  by_cases hr : ret ≠ 0
  · rw [if_pos hr]
    exact ⟨[], by simp⟩
  · rw [if_neg hr]
    dsimp only []
    by_cases hd : (realtek_mst_i2c_spi_wait_command_done o 0x60 0x01 0 1 0 s7).1 ≠ 0
    · rw [if_pos hd]
      obtain ⟨k, hk⟩ := wait_reads_only o 0x60 0x01 0 1 0 s7
      exact ⟨List.replicate k (Event.regRead 0x60), hk⟩
    · rw [if_neg hd]
      obtain ⟨k, hk⟩ := wait_reads_only o 0x60 0x01 0 1 0 s7
      obtain ⟨tl, htl⟩ := readChunkLoopF_ext o len (len + 1) 0 0
        (realtek_mst_i2c_spi_read_register o MCU_DATA_PORT
          (realtek_mst_i2c_spi_wait_command_done o 0x60 0x01 0 1 0 s7).2).2.2
      refine ⟨List.replicate k (Event.regRead 0x60) ++ [Event.regRead MCU_DATA_PORT] ++ tl, ?_⟩
      rw [htl]
      show (realtek_mst_i2c_spi_wait_command_done o 0x60 0x01 0 1 0 s7).2.tr
          ++ [Event.regRead MCU_DATA_PORT] ++ tl = _
      rw [hk]
      simp [List.append_assoc]

/-- C9: on the page-aligned path, bulk read decrements `start` with
unsigned 32-bit wraparound: the page window written to
`MAP_PAGE_BYTE2/1/0` is computed from `(start + 0xFFFFFFFF) % 2^32`, i.e.
`(start - 1) mod 2^32`, not from an exact-arithmetic `start - 1`.  In
particular `start = 0` programs block = page = byte = `0xFF`. -/
theorem C9_read_wraparound (o : Oracle) (start len : Nat) (h : start &&& 0xFF = 0) :
    ∃ rest,
      (realtek_mst_i2c_spi_read o start len S0).2.tr =
        [Event.regWrite 0x60 0x46,
         Event.regWrite 0x61 OPCODE_READ,
         Event.regWrite MAP_PAGE_BYTE2 ((((start + 0xFFFFFFFF) % 0x100000000) >>> 16) % 256),
         Event.regWrite MAP_PAGE_BYTE1 ((((start + 0xFFFFFFFF) % 0x100000000) >>> 8) % 256),
         Event.regWrite MAP_PAGE_BYTE0 (((start + 0xFFFFFFFF) % 0x100000000) % 256),
         Event.regWrite 0x6A 0x03,
         Event.regWrite 0x60 0x47] ++ rest := by
  unfold realtek_mst_i2c_spi_read
  rw [if_neg (by simp [h])]
  exact read_after_prefix_ext o len _ _

/-- C9 witness: at `start = 0` the page window registers `0x64`, `0x65`,
`0x66` are programmed with `0xFF, 0xFF, 0xFF` — flash address
`0xFFFFFF`. -/
theorem C9_read_wraparound_witness :
    ∃ rest, (realtek_mst_i2c_spi_read oracleOk0 0 0 S0).2.tr =
      [Event.regWrite 0x60 0x46, Event.regWrite 0x61 3,
       Event.regWrite 0x64 0xFF, Event.regWrite 0x65 0xFF, Event.regWrite 0x66 0xFF,
       Event.regWrite 0x6A 0x03, Event.regWrite 0x60 0x47] ++ rest := by
  obtain ⟨rest, hr⟩ := C9_read_wraparound oracleOk0 0 0 (by decide)
  refine ⟨rest, ?_⟩
  rw [hr]
  congr 1

/-- C10: in bulk read, the status of the dummy data-port read is
discarded: with an oracle failing exactly that operation (operation 8 of
an aligned one-page read) and succeeding everywhere else, the function
still returns success `0` — the same status as with an all-succeeding
oracle — even though the dummy read is present in the trace. -/
theorem C10_dummy_read_status_discarded :
    (realtek_mst_i2c_spi_read oracleDummyFail 256 256 S0).1 = 0 ∧
    oracleDummyFail.ok 8 = false ∧
    Event.regRead MCU_DATA_PORT ∈ (realtek_mst_i2c_spi_read oracleDummyFail 256 256 S0).2.tr ∧
    (realtek_mst_i2c_spi_read oracleDummyFail 256 256 S0).1
      = (realtek_mst_i2c_spi_read oracleOk0 256 256 S0).1 := by
  decide

/-! ### Bulk write chunking -/

/-- If the very first poll read succeeds and already satisfies the
condition, `wait_command_done` returns success after exactly one read. -/
theorem wait_immediate (o : Oracle) (offset mask target : Nat) (mult : Int) (val0 : Nat)
    (s : S) (hok : o.ok s.n = true) (hcond : (o.val s.n % 256) &&& mask = target) :
    realtek_mst_i2c_spi_wait_command_done o offset mask target mult val0 s =
      (0, ⟨s.n + 1, s.tr ++ [Event.regRead offset]⟩) := by
  unfold realtek_mst_i2c_spi_wait_command_done
  dsimp only []
  rw [waitLoopF]
  simp only [realtek_mst_i2c_spi_read_register, hok, if_true, Option.getD_some, zero_lor_int]
  simp [hcond, MAX_SPI_WAIT_RETRIES]

/-- Every operation of `oracleOk16` succeeds. -/
theorem oracleOk16_ok (n : Nat) : oracleOk16.ok n = true := rfl

/-- Against `oracleOk16` (reads return `0x10`), a poll for mask `0x10`,
target `0x10` — the buffer-empty wait of the bulk-write path — completes
on the first read. -/
theorem wait16_mask16 (offset : Nat) (mult : Int) (val0 : Nat) (s : S) :
    realtek_mst_i2c_spi_wait_command_done oracleOk16 offset 0x10 0x10 mult val0 s
      = (0, ⟨s.n + 1, s.tr ++ [Event.regRead offset]⟩) :=
  wait_immediate _ _ _ _ _ _ _ rfl (by simp [oracleOk16])

/-- Against `oracleOk16`, a poll for mask `0x20`, target `0` — the
transfer-done wait of `execute_write` — completes on the first read. -/
theorem wait16_mask32 (offset : Nat) (mult : Int) (val0 : Nat) (s : S) :
    realtek_mst_i2c_spi_wait_command_done oracleOk16 offset 0x20 0 mult val0 s
      = (0, ⟨s.n + 1, s.tr ++ [Event.regRead offset]⟩) :=
  wait_immediate _ _ _ _ _ _ _ rfl (by simp [oracleOk16]; decide)

/-- Once `i ≥ len`, the bulk-write chunk loop exits immediately with the
accumulated status. -/
theorem write256LoopF_exit (o : Oracle) (buf : List Nat) (start len : Nat) :
    ∀ (fuel i : Nat) (ret : Int) (s : S), ¬ i < len →
      write256LoopF o buf start len fuel i ret s = (ret, s) := by
  intro fuel
  cases fuel with
  | zero => intro i ret s hi; rfl
  | succ fuel => intro i ret s hi; rw [write256LoopF, if_neg hi]

/-- Full trace of the chunk loop for a 300-byte write against
`oracleOk16`: a 256-byte chunk with the default page size, then a
reprogramming of the page-size register to `43` followed by the final
44-byte chunk. -/
theorem write256_loop_300 (buf : List Nat) (start : Nat) :
    ∀ (fuel : Nat), 2 ≤ fuel → ∀ (s : S),
      write256LoopF oracleOk16 buf start 300 fuel 0 0 s =
        (0, ⟨s.n + 15, s.tr ++
          [Event.regWrite 0x64 (((start % 0x100000000) >>> 16) % 256),
           Event.regWrite 0x65 (((start % 0x100000000) >>> 8) % 256),
           Event.regWrite 0x66 0,
           Event.regRead 0x6F,
           Event.dataWrite REGISTER_ADDRESS (0x70 :: buf.take 256),
           Event.regWrite 0x6F 0xA0,
           Event.regRead 0x6F,
           Event.regWrite 0x71 43,
           Event.regWrite 0x64 ((((start + 256) % 0x100000000) >>> 16) % 256),
           Event.regWrite 0x65 ((((start + 256) % 0x100000000) >>> 8) % 256),
           Event.regWrite 0x66 0,
           Event.regRead 0x6F,
           Event.dataWrite REGISTER_ADDRESS (0x70 :: (buf.drop 256).take 44),
           Event.regWrite 0x6F 0xA0,
           Event.regRead 0x6F]⟩) := by
  intro fuel hf s
  obtain ⟨f1, rfl⟩ : ∃ k, fuel = k + 1 := ⟨fuel - 1, by omega⟩
  obtain ⟨f2, rfl⟩ : ∃ k, f1 = k + 1 := ⟨f1 - 1, by omega⟩
  rw [write256LoopF]
  rw [if_pos (by norm_num : (0 : Nat) < 300)]
  simp [write256LoopF, write256LoopF_exit, wait16_mask16, wait16_mask32,
    realtek_mst_i2c_spi_write_register, realtek_mst_i2c_spi_map_page,
    realtek_mst_i2c_spi_write_page, realtek_mst_i2c_execute_write,
    realtek_mst_i2c_spi_write_data, oracleOk16_ok, PAGE_SIZE, MCU_MODE, MCU_DATA_PORT,
    WRITE_XFER_STATUS_MASK, START_WRITE_XFER,
    MAP_PAGE_BYTE2, MAP_PAGE_BYTE1, MAP_PAGE_BYTE0, REGISTER_ADDRESS,
    zero_lor_int, lor_zero_int, List.append_assoc, List.take_take]

/-- C5: a page-aligned 300-byte bulk write with all transport succeeding
(`oracleOk16`) returns success and transfers exactly two data-port chunks
— 256 bytes then 44 bytes — with the page-size register `0x71` written to
the default `255` before the first chunk and reprogrammed to `43` before
the second. -/
theorem C5_write_300_chunking (start : Nat) (buf : List Nat)
    (h : start &&& 0xFF = 0) (hlen : buf.length = 300) :
    (realtek_mst_i2c_spi_write_256 oracleOk16 buf start 300 S0).1 = 0 ∧
    (realtek_mst_i2c_spi_write_256 oracleOk16 buf start 300 S0).2.tr.filter isChunkEv =
      [Event.regWrite 0x71 255,
       Event.dataWrite REGISTER_ADDRESS (MCU_DATA_PORT :: buf.take 256),
       Event.regWrite 0x71 43,
       Event.dataWrite REGISTER_ADDRESS (MCU_DATA_PORT :: (buf.drop 256).take 44)] ∧
    (buf.take 256).length = 256 ∧ ((buf.drop 256).take 44).length = 44 := by
  have hdp : realtek_mst_i2c_spi_disable_protection oracleOk16 S0 =
      (0, ⟨10, [Event.regWrite 0xF4 0x9F, Event.regWrite 0xF5 0x10, Event.regWrite 0xF4 0xAB,
                Event.regRead 0xF5,
                Event.regWrite 0xF4 0x9F, Event.regWrite 0xF5 0x10, Event.regWrite 0xF4 0xAB,
                Event.regWrite 0xF5 17, Event.regRead 0xD7, Event.regWrite 0xD7 17]⟩) := by
    decide
  have hrun : realtek_mst_i2c_spi_write_256 oracleOk16 buf start 300 S0 =
      (0, ⟨27,
        [Event.regWrite 0xF4 0x9F, Event.regWrite 0xF5 0x10, Event.regWrite 0xF4 0xAB,
         Event.regRead 0xF5,
         Event.regWrite 0xF4 0x9F, Event.regWrite 0xF5 0x10, Event.regWrite 0xF4 0xAB,
         Event.regWrite 0xF5 17, Event.regRead 0xD7, Event.regWrite 0xD7 17,
         Event.regWrite 0x6D 2, Event.regWrite 0x71 255,
         Event.regWrite 0x64 (((start % 0x100000000) >>> 16) % 256),
         Event.regWrite 0x65 (((start % 0x100000000) >>> 8) % 256),
         Event.regWrite 0x66 0,
         Event.regRead 0x6F,
         Event.dataWrite REGISTER_ADDRESS (0x70 :: buf.take 256),
         Event.regWrite 0x6F 0xA0,
         Event.regRead 0x6F,
         Event.regWrite 0x71 43,
         Event.regWrite 0x64 ((((start + 256) % 0x100000000) >>> 16) % 256),
         Event.regWrite 0x65 ((((start + 256) % 0x100000000) >>> 8) % 256),
         Event.regWrite 0x66 0,
         Event.regRead 0x6F,
         Event.dataWrite REGISTER_ADDRESS (0x70 :: (buf.drop 256).take 44),
         Event.regWrite 0x6F 0xA0,
         Event.regRead 0x6F]⟩) := by
    unfold realtek_mst_i2c_spi_write_256
    rw [if_neg (by simp [h])]
    simp only [hdp]
    norm_num
    simp only [realtek_mst_i2c_spi_write_register, oracleOk16_ok, if_true, zero_lor_int,
      PAGE_SIZE]
    rw [write256_loop_300 buf start (300 + 1) (by norm_num)]
    simp [List.append_assoc]
  rw [hrun]
  refine ⟨rfl, ?_, by simp [hlen], by simp [hlen]⟩
  simp [isChunkEv, MCU_DATA_PORT, REGISTER_ADDRESS]

/-- C5 witness: at `start = 256` with a concrete 300-byte buffer, the run
succeeds, issues exactly the chunks of 256 and 44 bytes, and the page-size
register writes are `255` then `43`. -/
theorem C5_write_300_chunking_witness :
    (realtek_mst_i2c_spi_write_256 oracleOk16 (List.replicate 300 7) 256 300 S0).1 = 0 ∧
    (realtek_mst_i2c_spi_write_256 oracleOk16 (List.replicate 300 7) 256 300 S0).2.tr.filter
        isChunkEv =
      [Event.regWrite 0x71 255,
       Event.dataWrite REGISTER_ADDRESS (MCU_DATA_PORT :: (List.replicate 300 7).take 256),
       Event.regWrite 0x71 43,
       Event.dataWrite REGISTER_ADDRESS
         (MCU_DATA_PORT :: ((List.replicate 300 7).drop 256).take 44)] ∧
    ((List.replicate 300 7).take 256).length = 256 ∧
    (((List.replicate 300 7).drop 256).take 44).length = 44 :=
  C5_write_300_chunking 256 (List.replicate 300 7) (by decide)
    (by rw [List.length_replicate])

end Realtek
